import Mathlib

/-!
Shallow embedding of the dunst notification drawing core (src/draw.c) and
verification of its specification claims.

Conventions of the embedding:
* C `double` arithmetic on colors is modelled exactly over `ℚ` (the spec and
  claims speak at the level of real arithmetic; the fixed constants 0.1 and
  1/255 are exact rationals).
* glib `guint` / `unsigned int` arithmetic is modelled as `Nat` reduced
  modulo `2 ^ 32` at each operation; C `int` values are modelled as `Int`
  (or `Nat` where the source only ever holds non-negative values).
* External collaborators (Pango text shaping, the filesystem, the markup
  parser, gdk-pixbuf decoding) are modelled as oracle functions carried in
  an `Env` record; the functions of draw.c are translated against those
  oracles.
* The headers declaring `settings`, `geometry`, `dimension_t`,
  `notification` are not part of the given sources; their fields are
  modelled from the spec (§3, §6) and from their uses in draw.c.
-/

namespace Dunst

/-- Modulus of 32-bit unsigned arithmetic (glib `guint`, C `unsigned int`). -/
def M32 : Nat := 4294967296

/-- Unsigned 32-bit reduction. -/
def u32 (n : Nat) : Nat := n % M32

/-- Unsigned 32-bit addition. -/
def uadd (a b : Nat) : Nat := (a + b) % M32

/-- Unsigned 32-bit subtraction (wrap-around). -/
def usub (a b : Nat) : Nat := (a % M32 + (M32 - b % M32)) % M32

/-- Unsigned 32-bit multiplication. -/
def umul (a b : Nat) : Nat := (a % M32) * (b % M32) % M32

/-- Conversion of a C `int` value to `unsigned int` (two's complement wrap). -/
def u32ofInt (i : Int) : Nat := (i % (M32 : Int)).toNat

/-- color_t from draw.c: three channels, modelled as exact rationals. -/
structure color_t where
  r : ℚ
  g : ℚ
  b : ℚ
deriving DecidableEq, Repr

/-- Channel mean used by `calculate_foreground_color` (the `(r+g+b)/3` test). -/
def channelMean (c : color_t) : ℚ := (c.r + c.g + c.b) / 3

/-- draw.c `_apply_delta`: add a delta to one channel and clamp to [0,1]. -/
def _apply_delta (base delta : ℚ) : ℚ :=
  let b1 := base + delta
  if 1 < b1 then 1
  else if b1 < 0 then 0
  else b1

/-- draw.c `calculate_foreground_color`: shift every channel by 0.1 toward
darker when the channel mean exceeds 0.5, toward lighter otherwise. -/
def calculate_foreground_color (bg : color_t) : color_t :=
  let c_delta : ℚ := 1 / 10
  let darken : Bool := decide ((1 : ℚ) / 2 < (bg.r + bg.g + bg.b) / 3)
  let signedness : ℚ := if darken then -1 else 1
  { r := _apply_delta bg.r (c_delta * signedness)
    g := _apply_delta bg.g (c_delta * signedness)
    b := _apply_delta bg.b (c_delta * signedness) }

/-- Hexadecimal digit classification and value, as recognised by
`strtol(str, end, 16)` (ASCII ranges 0-9, a-f, A-F). -/
def hexVal (c : Char) : Option Nat :=
  let n := c.toNat
  if 48 ≤ n ∧ n ≤ 57 then some (n - 48)
  else if 97 ≤ n ∧ n ≤ 102 then some (n - 87)
  else if 65 ≤ n ∧ n ≤ 70 then some (n - 55)
  else none

/-- LONG_MAX of the 64-bit targets dunst builds on: `strtol` saturates an
overflowing parse at this value. -/
def LONG_MAX : Nat := 9223372036854775807

/-- isspace in the C locale: space and the five control characters
\t \n \v \f \r (ASCII 9 to 13). -/
def isSpaceChar (c : Char) : Bool :=
  decide (c.toNat = 32 ∨ (9 ≤ c.toNat ∧ c.toNat ≤ 13))

/-- Digit loop of `strtol(·, &end, 16)`: consumes the maximal hex-digit run,
accumulating its value saturated at the cutoff (`LONG_MAX`, or the magnitude
of LONG_MIN for a negative parse — once the true value passes the cutoff,
strtol returns the cutoff), and returns the unconsumed tail (the `end`
pointer).  All digits are consumed even after saturation. -/
def strtol_hex_go (cut : Nat) : Nat → List Char → Nat × List Char
  | acc, [] => (acc, [])
  | acc, c :: cs =>
      match hexVal c with
      | some v =>
          strtol_hex_go cut (if cut < 16 * acc + v then cut else 16 * acc + v) cs
      | none => (acc, c :: cs)

/-- `strtol(s, &end, 16)`: skip leading whitespace, an optional sign, and an
optional 0x/0X prefix (consumed only when a hex digit follows it); then run
the saturating digit loop.  When no digit at all is converted, the value is
0 and `end` is reset to the original start of the string, as the C standard
prescribes. -/
def strtol16 (s : List Char) : Int × List Char :=
  let s1 := s.dropWhile isSpaceChar
  let neg : Bool :=
    match s1 with
    | c :: _ => c = '-'
    | [] => false
  let s2 : List Char :=
    match s1 with
    | c :: r => if c = '-' || c = '+' then r else c :: r
    | [] => []
  let s3 : List Char :=
    match s2 with
    | c0 :: x :: c1 :: r =>
        if c0 = '0' && (x = 'x' || x = 'X') && (hexVal c1).isSome then c1 :: r
        else s2
    | _ => s2
  let cut : Nat := if neg then 9223372036854775808 else LONG_MAX
  let scan := strtol_hex_go cut 0 s3
  match s3 with
  | c :: _ =>
      if (hexVal c).isSome then
        (if neg then -(scan.1 : Int) else (scan.1 : Int), scan.2)
      else (0, s)
  | [] => (0, s)

/-- draw.c `x_color_hex_to_double`: byte extraction of r, g, b from a packed
24-bit value and normalisation by 255. -/
def x_color_hex_to_double (hexValue : Nat) : color_t :=
  { r := (((hexValue >>> 16) &&& 255 : Nat) : ℚ) / 255
    g := (((hexValue >>> 8) &&& 255 : Nat) : ℚ) / 255
    b := ((hexValue &&& 255 : Nat) : ℚ) / 255 }

/-- draw.c `x_string_to_color_t`: skip the leading marker character, parse the
hex tail with `strtol`, warn when `*end != '\0' && *(end+1) != '\0'` (that is,
when at least two unparsed characters remain), and always return the color of
the parsed value.  The `long` value is passed to the `int` parameter of
`x_color_hex_to_double`, keeping its low 32 bits; since the extraction there
reads only bits 0 to 23 (an arithmetic shift followed by an 8-bit mask), the
argument is modelled as the 32-bit residue `u32ofInt`.  The returned Bool
records whether the warning was printed. -/
def x_string_to_color_t (str : List Char) : color_t × Bool :=
  let scan := strtol16 str.tail
  let warned : Bool :=
    match scan.2 with
    | _ :: _ :: _ => true
    | _ => false
  (x_color_hex_to_double (u32ofInt scan.1), warned)

/-- Separator color policy (settings.sep_color enum in the configuration). -/
inductive SepColorKind where
  | frame
  | custom
  | foreground
  | auto
deriving DecidableEq, Repr

/-- Icon placement policy (settings.icon_position). -/
inductive IconPosition where
  | left
  | right
  | off
deriving DecidableEq, Repr

/-- Ellipsization policy (settings.ellipsize). -/
inductive EllipsizeKind where
  | start
  | middle
  | atEnd
deriving DecidableEq, Repr

/-- Modelled from the spec: the configuration structure (settings.h is not part
of the given sources).  Fields are those draw.c reads; spacing and size values
are the non-negative integers the spec describes (§4, §6). -/
structure Settings where
  frame_width : Nat
  separator_height : Nat
  padding : Nat
  h_padding : Nat
  notification_height : Nat
  shrink : Bool
  indicate_hidden : Bool
  word_wrap : Bool
  ellipsize : EllipsizeKind
  icon_position : IconPosition
  max_icon_size : Nat
  sep_color : SepColorKind
  sep_custom_color_str : String
deriving DecidableEq, Repr

/-- Modelled from the spec: the stack placement/sizing policy parsed at startup
(`struct geometry`, declared outside the given sources).  `width`/`height` come
from XParseGeometry and are unsigned; `x` is a signed screen offset. -/
structure Geometry where
  dynamic_width : Bool
  width : Nat
  negative_width : Bool
  height : Nat
  x : Int
deriving DecidableEq, Repr

/-- Modelled from the spec: the computed dimension record (`dimension_t`,
declared outside the given sources).  Per the spec §3 it holds width, height
and a cursor; `w`/`h` are 32-bit unsigned values, `x`/`y` signed. -/
structure dimension_t where
  x : Int
  y : Int
  w : Nat
  h : Nat
deriving DecidableEq, Repr

/-- Opaque token standing for a parsed PangoAttrList. -/
structure PangoAttrList where
  tag : Nat
deriving DecidableEq, Repr

/-- State of one PangoLayout object that the draw.c code manipulates: the text
set on it, the attribute list applied to it, and the pixel width it was last
configured with by `r_setup_pango_layout` (-1 meaning unbounded).  Font,
wrap mode, spacing, alignment and ellipsization are fixed per run by the
configuration and are absorbed into the measurement oracle. -/
structure PangoLayout where
  text : String
  attrs : Option PangoAttrList
  widthSetting : Int
deriving DecidableEq, Repr

/-- A decoded raster image (GdkPixbuf / cairo image surface): only its pixel
dimensions matter to the layout code. -/
structure Image where
  width : Nat
  height : Nat
deriving DecidableEq, Repr

/-- A raw image buffer attached to a notification (the RawImage struct). -/
structure RawImage where
  width : Nat
  height : Nat
  rowstride : Nat
  bits_per_sample : Nat
  has_alpha : Bool
  dataTag : Nat
deriving DecidableEq, Repr

/-- State of one path in the modelled filesystem: a decodable image file, a
file that exists but cannot be read or decoded, or no file at all. -/
inductive FileState where
  | decodable (img : Image)
  | undecodable
  | absent
deriving DecidableEq, Repr

/-- Modelled from the spec: the notification record (notification.h is not
part of the given sources).  Fields are the ones draw.c reads and writes:
render text, first-render flag, cached displayed height, urgency tier, the
three per-urgency color strings, and the icon reference. -/
structure Notification where
  text_to_render : String
  first_render : Bool
  displayed_height : Nat
  urgency : Nat
  colorFG : String
  colorBG : String
  colorFrame : String
  raw_icon : Option RawImage
  icon : Option String
  icon_overridden : Bool
deriving DecidableEq, Repr

/-- draw.c `colored_layout`: one notification's renderable unit. -/
structure ColoredLayout where
  l : PangoLayout
  fg : color_t
  bg : color_t
  frame : color_t
  text : Option String
  attr : Option PangoAttrList
  icon : Option Image
  n : Notification
deriving DecidableEq, Repr

/-- The environment a repaint runs in: the fixed configuration plus the
external collaborators as oracles — Pango text measurement, the filesystem,
the colon-split icon search path, the markup parser and stripper, raw-image
decoding, and the queue collaborator's text update. -/
structure Env where
  s : Settings
  g : Geometry
  scr_w : Nat
  measure : PangoLayout → Nat × Nat
  fs : String → FileState
  icon_dirs : List String
  parseMarkup : String → Option (String × PangoAttrList)
  markupStrip : String → String
  decodeRaw : RawImage → Option Image
  updateTTR : Notification → String

/-- pango_layout_get_pixel_size: ask the shaping oracle for the pixel size of
a layout in its current configuration. -/
def layoutPixelSize (env : Env) (l : PangoLayout) : Nat × Nat := env.measure l

/-- draw.c `r_setup_pango_layout`: reconfigure a layout to a target pixel
width; the wrap mode, font, spacing and alignment it also sets are fixed per
run and live in the measurement oracle. -/
def r_setup_pango_layout (l : PangoLayout) (width : Int) : PangoLayout :=
  { l with widthSetting := width }

/-- The `pango_layout_get_pixel_size` + icon folding step shared by
`calculate_dimensions` and `x_render_layout`: measure the layout, then widen
by icon width + h_padding and raise the height to at least the icon height. -/
def contentSize (env : Env) (l : PangoLayout) (icon : Option Image) : Nat × Nat :=
  let wh := layoutPixelSize env l
  match icon with
  | some ic => (wh.1 + ic.width + env.s.h_padding, max ic.height wh.2)
  | none => wh

/-- Accumulator threaded through the `calculate_dimensions` loop: the two
unsigned dimension fields, the `int text_width`/`total_width` locals, and the
(possibly re-configured) layouts processed so far. -/
structure CalcState where
  dimW : Nat
  dimH : Nat
  text_width : Nat
  total_width : Nat
  outLayouts : List ColoredLayout

/-- One iteration of the `calculate_dimensions` loop over a layout. -/
def calc_step (env : Env) (st : CalcState) (cl : ColoredLayout) : CalcState :=
  let wh := contentSize env cl.l cl.icon
  let h1 := max env.s.notification_height (wh.2 + env.s.padding * 2)
  let dimH1 := uadd st.dimH h1
  let tw1 := max wh.1 st.text_width
  if env.g.dynamic_width || env.s.shrink then
    let total1 := max (tw1 + 2 * env.s.h_padding) st.total_width
    let dimH2 := usub dimH1 h1
    let dimW1 : Nat :=
      if env.scr_w < total1 then u32ofInt ((env.scr_w : Int) - env.g.x * 2)
      else if env.g.dynamic_width || (total1 < env.g.width && env.s.shrink) then
        uadd total1 (2 * env.s.frame_width)
      else st.dimW
    let w2 : Int := (dimW1 : Int) - 2 * env.s.h_padding - 2 * env.s.frame_width -
      (match cl.icon with
       | some ic => ((ic.width + env.s.h_padding : Nat) : Int)
       | none => 0)
    let cl2 : ColoredLayout := { cl with l := r_setup_pango_layout cl.l w2 }
    let wh2 := contentSize env cl2.l cl2.icon
    let h2 := max env.s.notification_height (wh2.2 + env.s.padding * 2)
    { dimW := dimW1
      dimH := uadd dimH2 h2
      text_width := max wh2.1 tw1
      total_width := total1
      outLayouts := st.outLayouts ++ [cl2] }
  else
    { st with dimH := dimH1, text_width := tw1, outLayouts := st.outLayouts ++ [cl] }

/-- draw.c `calculate_dimensions`: width selection, height accumulation and
the dynamic-width/shrink reflow.  Returns the dimension record together with
the (possibly re-configured) layout list, since the C code mutates the
PangoLayout objects in place during reflow. -/
def calculate_dimensions (env : Env) (layouts : List ColoredLayout) :
    dimension_t × List ColoredLayout :=
  let w0 : Nat :=
    if env.g.dynamic_width then 0
    else if env.g.width ≠ 0 then
      if env.g.negative_width then usub env.scr_w env.g.width
      else u32 env.g.width
    else u32 env.scr_w
  let h0 : Nat :=
    uadd (uadd 0 (2 * env.s.frame_width))
      (umul (usub (u32 layouts.length) 1) env.s.separator_height)
  let fin := layouts.foldl (calc_step env) ⟨w0, h0, 0, 0, []⟩
  let w1 : Nat :=
    if fin.dimW = 0 then
      uadd (uadd fin.text_width (2 * env.s.h_padding)) (2 * env.s.frame_width)
    else fin.dimW
  (⟨0, 0, w1, fin.dimH⟩, fin.outLayouts)

/-- The initial width of the `calculate_dimensions` accumulator (the width
selection table before the loop). -/
def calcW0 (env : Env) : Nat :=
  if env.g.dynamic_width then 0
  else if env.g.width ≠ 0 then
    if env.g.negative_width then usub env.scr_w env.g.width
    else u32 env.g.width
  else u32 env.scr_w

/-- The initial height of the `calculate_dimensions` accumulator: frame plus
the (possibly underflowing) separator term. -/
def calcH0 (env : Env) (n : Nat) : Nat :=
  uadd (uadd 0 (2 * env.s.frame_width))
    (umul (usub (u32 n) 1) env.s.separator_height)

/-- draw.c `x_get_separator_color`: the separator color policy table. -/
def x_get_separator_color (env : Env) (cl cl_next : ColoredLayout) : color_t :=
  match env.s.sep_color with
  | SepColorKind.frame =>
      if cl.n.urgency < cl_next.n.urgency then cl_next.frame else cl.frame
  | SepColorKind.custom => (x_string_to_color_t env.s.sep_custom_color_str.data).1
  | SepColorKind.foreground => cl.fg
  | SepColorKind.auto => calculate_foreground_color cl.bg

/-- draw.c `x_render_layout`: paint one card and advance the shared cursor.
The cairo paint calls (frame rectangle, background rectangle, text, separator
rectangle, icon composite) only write pixels; the returned dimension record
differs from the input only in the cursor `y`, which this transcribes exactly:
the first-card frame inset, the padded or vertically-centered text advance,
and the separator advance. -/
def x_render_layout (env : Env) (cl : ColoredLayout) (cl_next : Option ColoredLayout)
    (dim : dimension_t) (first last : Bool) : dimension_t :=
  let hM := (layoutPixelSize env cl.l).2
  let h : Nat :=
    match cl.icon with
    | some ic => max ic.height hM
    | none => hM
  let pango_offset : Nat := h / 2
  let nh := env.s.notification_height
  let y1 : Int := if first then dim.y + env.s.frame_width else dim.y
  let use_padding : Bool := decide (nh ≤ 2 * env.s.padding + h)
  let y2 : Int :=
    if use_padding then y1 + env.s.padding
    else y1 + (((nh + 1) / 2 : Nat) : Int) - (pango_offset : Int)
  let y3 : Int :=
    if use_padding then y2 + h + env.s.padding
    else y2 + ((nh / 2 : Nat) : Int) + (pango_offset : Int)
  let sepPainted : Bool := decide (0 < env.s.separator_height) && !last
  let y4 : Int := if sepPainted then y3 + env.s.separator_height else y3
  { dim with y := y4 }

/-- The render loop of draw(): fold `x_render_layout` over the layouts,
passing the successor for separator coloring and the first/last flags. -/
def renderLoop (env : Env) : dimension_t → Bool → List ColoredLayout → dimension_t
  | dim, _, [] => dim
  | dim, first, [cl] => x_render_layout env cl none dim first true
  | dim, first, cl :: cl2 :: rest =>
      renderLoop env (x_render_layout env cl (some cl2) dim first false) false (cl2 :: rest)

/-- draw.c `does_file_exist` (access F_OK): the path names some file. -/
def does_file_exist (fs : String → FileState) (p : String) : Bool :=
  match fs p with
  | FileState.absent => false
  | _ => true

/-- draw.c `get_pixbuf_from_file`: readable and decodable paths yield an
image; unreadable or undecodable paths yield nothing (both are folded into
`FileState.undecodable`). -/
def get_pixbuf_from_file (fs : String → FileState) (p : String) : Option Image :=
  match fs p with
  | FileState.decodable img => some img
  | _ => none

/-- The search loop of `get_pixbuf_from_path` over the colon-split base
directories: in each directory the `.svg` candidate is chosen when a file
exists at that path, the `.png` candidate otherwise; the chosen candidate is
then loaded, a success returns immediately, a failure moves to the next
directory. -/
def icon_path_search (fs : String → FileState) : List String → String → Option Image
  | [], _ => none
  | d :: rest, name =>
      let svgPath := d ++ "/" ++ name ++ ".svg"
      let pngPath := d ++ "/" ++ name ++ ".png"
      let maybe_icon_path := if does_file_exist fs svgPath then svgPath else pngPath
      match get_pixbuf_from_file fs maybe_icon_path with
      | some pb => some pb
      | none => icon_path_search fs rest name

/-- g_str_has_prefix over character lists (`strStarts s p` holds when `s`
begins with `p`). -/
def strStarts : List Char → List Char → Bool
  | _, [] => true
  | [], _ :: _ => false
  | c :: cs, p :: ps => c = p && strStarts cs ps

/-- draw.c `get_pixbuf_from_path`: strip a file:// scheme, try a direct load
for absolute or home-relative paths, otherwise scan the icon search path; an
overall failure prints the "Could not load icon" warning.  The returned Bool
records whether that warning was printed.  g_filename_from_uri is modelled by
dropping the seven scheme characters. -/
def get_pixbuf_from_path (env : Env) (icon_path : String) : Option Image × Bool :=
  if icon_path.length = 0 then (none, false)
  else
    let path1 := if strStarts icon_path.data ("file://".data) then icon_path.drop 7
                 else icon_path
    let direct : Option Image :=
      if strStarts path1.data ("/".data) || strStarts path1.data ("~".data) then
        get_pixbuf_from_file env.fs path1
      else none
    match direct with
    | some pb => (some pb, false)
    | none =>
        match icon_path_search env.fs env.icon_dirs path1 with
        | some pb => (some pb, false)
        | none => (none, true)

/-- The icon downscaling block of `r_init_shared`: when the larger side
exceeds settings.max_icon_size, scale so the larger side equals the maximum,
rounding the shorter side (`(int)((double)max/w*h)` is the floored ratio). -/
def r_scale_icon (env : Env) (pb : Image) : Image :=
  let larger := if pb.height < pb.width then pb.width else pb.height
  if env.s.max_icon_size ≠ 0 && decide (env.s.max_icon_size < larger) then
    if pb.height ≤ pb.width then
      { width := env.s.max_icon_size, height := env.s.max_icon_size * pb.height / pb.width }
    else
      { width := env.s.max_icon_size * pb.width / pb.height, height := env.s.max_icon_size }
  else pb

/-- draw.c `r_init_shared`: create the layout object, resolve and scale the
icon, resolve the urgency colors, and configure the layout width from the
fixed-width pre-computation `calculate_dimensions(NULL)`.  The `text` and
`attr` fields are left unset here (the C code leaves them uninitialised) and
are filled by the two callers. -/
def r_init_shared (env : Env) (n : Notification) : ColoredLayout :=
  let l0 : PangoLayout := { text := "", attrs := none, widthSetting := 0 }
  let pixbuf0 : Option Image :=
    if n.raw_icon.isSome && !n.icon_overridden &&
        decide (env.s.icon_position ≠ IconPosition.off) then
      n.raw_icon.bind env.decodeRaw
    else if n.icon.isSome && decide (env.s.icon_position ≠ IconPosition.off) then
      n.icon.bind (fun ip => (get_pixbuf_from_path env ip).1)
    else none
  let icon := pixbuf0.map (r_scale_icon env)
  let fg := (x_string_to_color_t n.colorFG.data).1
  let bg := (x_string_to_color_t n.colorBG.data).1
  let frame := (x_string_to_color_t n.colorFrame.data).1
  let dim0 := (calculate_dimensions env []).1
  let width0 : Int := (dim0.w : Int) - 2 * env.s.h_padding - 2 * env.s.frame_width
  let width1 : Int :=
    match icon with
    | some ic => width0 - ((ic.width + env.s.h_padding : Nat) : Int)
    | none => width0
  let l1 := if env.g.dynamic_width then r_setup_pango_layout l0 (-1)
            else r_setup_pango_layout l0 width1
  { l := l1, fg := fg, bg := bg, frame := frame,
    text := none, attr := none, icon := icon, n := n }

/-- The text of the synthetic overflow entry, `"(%d more)"`. -/
def xmoreLabel (qlen : Nat) : String := "(" ++ toString qlen ++ " more)"

/-- draw.c `r_create_layout_for_xmore`: the synthetic overflow card — shared
initialisation, a fixed generated string, no attribute list. -/
def r_create_layout_for_xmore (env : Env) (n : Notification) (qlen : Nat) : ColoredLayout :=
  let cl := r_init_shared env n
  let txt := xmoreLabel qlen
  { cl with text := some txt, attr := none, l := { cl.l with text := txt } }

/-- Result of building a layout for one notification: the layout, the updated
notification record (render text, displayed height, first-render flag), and
whether the markup-error warning was printed. -/
structure BuildResult where
  cl : ColoredLayout
  n : Notification
  warned : Bool
deriving Repr

/-- draw.c `r_create_layout_from_notification`: run markup parsing on the
render text; on success apply text and attributes; on failure strip the
markup, display the plain text without attributes, and print the parse
error only on the notification's first render.  Then cache the displayed
height and clear the first-render flag. -/
def r_create_layout_from_notification (env : Env) (n : Notification) : BuildResult :=
  let cl0 := r_init_shared env n
  match env.parseMarkup n.text_to_render with
  | some (text, attrs) =>
      let l2 : PangoLayout := { cl0.l with text := text, attrs := some attrs }
      let dh0 := (layoutPixelSize env l2).2
      let dh1 := match cl0.icon with
        | some ic => max ic.height dh0
        | none => dh0
      let dh := max env.s.notification_height (dh1 + env.s.padding * 2)
      { cl := { cl0 with l := l2, text := some text, attr := some attrs }
        n := { n with displayed_height := dh, first_render := false }
        warned := false }
  | none =>
      let stripped := env.markupStrip n.text_to_render
      let l2 : PangoLayout := { cl0.l with text := stripped }
      let dh0 := (layoutPixelSize env l2).2
      let dh1 := match cl0.icon with
        | some ic => max ic.height dh0
        | none => dh0
      let dh := max env.s.notification_height (dh1 + env.s.padding * 2)
      { cl := { cl0 with l := l2, text := none, attr := none }
        n := { n with text_to_render := stripped, displayed_height := dh,
                      first_render := false }
        warned := n.first_render }

/-- The external `notification_update_text_to_render` (notification.c, not in
the given sources).  Modelled from the spec: the queue collaborator produces
the render text for a notification; the oracle `updateTTR` stands for that
formatting step. -/
def notification_update_text_to_render (env : Env) (n : Notification) : Notification :=
  { n with text_to_render := env.updateTTR n }

/-- Stands for the NULL notification pointer: when the displayed list is
empty, the C code would hand NULL to `r_create_layout_for_xmore` and crash in
`r_init_shared`; theorems about `r_create_layouts` therefore assume a
nonempty displayed list. -/
def nullNotification : Notification :=
  ⟨"", false, 0, 0, "", "", "", none, none, false⟩

/-- The loop body of `r_create_layouts`: walk the displayed notifications,
refresh each render text, suffix the hidden count onto the last one in
single-line mode, build each layout, and remember the last notification. -/
def r_create_layouts_go (env : Env) (qlen : Nat) (xmore_is_needed : Bool) :
    List Notification → Option Notification → List ColoredLayout × Option Notification
  | [], last => ([], last)
  | n :: rest, _ =>
      let n1 := notification_update_text_to_render env n
      let n2 :=
        if rest.isEmpty && xmore_is_needed && decide (env.g.height = 1) then
          { n1 with text_to_render := n1.text_to_render ++ " " ++ xmoreLabel qlen }
        else n1
      let tail := r_create_layouts_go env qlen xmore_is_needed rest (some n2)
      ((r_create_layout_from_notification env n2).cl :: tail.1, tail.2)

/-- draw.c `r_create_layouts`: build the layout list for the displayed
notifications (qlen being the count of hidden, queued notifications) and
append the synthetic overflow card when needed and not in single-line mode. -/
def r_create_layouts (env : Env) (displayed : List Notification) (qlen : Nat) :
    List ColoredLayout :=
  let xmore_is_needed : Bool := decide (0 < qlen) && env.s.indicate_hidden
  let res := r_create_layouts_go env qlen xmore_is_needed displayed none
  if xmore_is_needed && decide (env.g.height ≠ 1) then
    res.1 ++ [r_create_layout_for_xmore env (res.2.getD nullNotification) qlen]
  else res.1

/-- The value `strtol` accumulates over a run of hex digits in a positive
parse, starting from a given accumulator and saturating at LONG_MAX. -/
def hexFold (acc : Nat) (l : List Char) : Nat :=
  l.foldl (fun a c =>
    if LONG_MAX < 16 * a + (hexVal c).getD 0 then LONG_MAX
    else 16 * a + (hexVal c).getD 0) acc

/-- The unsaturated hex accumulation, used to evaluate `hexFold` on parses
that stay below LONG_MAX. -/
def rawHexFold (acc : Nat) (l : List Char) : Nat :=
  l.foldl (fun a c => 16 * a + (hexVal c).getD 0) acc

/-- Height contribution of one card, as computed identically by
`calculate_dimensions` and `x_render_layout`: content height plus both
vertical paddings, raised to at least the minimum notification height. -/
def cardHeight (env : Env) (cl : ColoredLayout) : Nat :=
  max env.s.notification_height ((contentSize env cl.l cl.icon).2 + env.s.padding * 2)

/-- Sum of the per-card heights of a layout list. -/
def stackContentHeight (env : Env) (l : List ColoredLayout) : Nat :=
  (l.map (cardHeight env)).sum

/-- Content width of one card as measured in `calculate_dimensions`
(text width, widened by the icon and its gap). -/
def contentWidth (env : Env) (cl : ColoredLayout) : Nat :=
  (contentSize env cl.l cl.icon).1

/-- Final value of the running maximum `text_width` over a layout list. -/
def maxContentWidth (env : Env) (l : List ColoredLayout) : Nat :=
  l.foldl (fun a cl => max (contentWidth env cl) a) 0

/-- The notification actually handed to the layout builder for the last
displayed entry: its render text refreshed, and suffixed with the hidden
count when the overflow indicator is needed in single-line height mode. -/
def finalNotif (env : Env) (qlen : Nat) (xm : Bool) (n : Notification) : Notification :=
  let n1 := notification_update_text_to_render env n
  if xm && decide (env.g.height = 1) then
    { n1 with text_to_render := n1.text_to_render ++ " " ++ xmoreLabel qlen }
  else n1

/-- Follows the spec wording of claim C8 (refinement reference, not the
code): in each directory try the svg candidate, then the png candidate,
returning the first successfully decoded image. -/
def icon_path_search_spec (fs : String → FileState) :
    List String → String → Option Image
  | [], _ => none
  | d :: rest, name =>
      match get_pixbuf_from_file fs (d ++ "/" ++ name ++ ".svg") with
      | some pb => some pb
      | none =>
          match get_pixbuf_from_file fs (d ++ "/" ++ name ++ ".png") with
          | some pb => some pb
          | none => icon_path_search_spec fs rest name

/-- The candidate path the code actually decodes in one directory: the svg
path when a file exists there, the png path otherwise. -/
def selectedCandidate (fs : String → FileState) (name d : String) : String :=
  if does_file_exist fs (d ++ "/" ++ name ++ ".svg") then d ++ "/" ++ name ++ ".svg"
  else d ++ "/" ++ name ++ ".png"

/-- A concrete environment used by the concrete instances below: fixed width
100, frame width 1, separator height 1, padding 5, icons off, a constant
10x20 text measurement, and a markup parser that always fails. -/
def baseEnv : Env :=
  { s := { frame_width := 1, separator_height := 1, padding := 5, h_padding := 0,
           notification_height := 0, shrink := false, indicate_hidden := true,
           word_wrap := true, ellipsize := EllipsizeKind.atEnd,
           icon_position := IconPosition.off, max_icon_size := 0,
           sep_color := SepColorKind.foreground, sep_custom_color_str := "" }
    g := { dynamic_width := false, width := 100, negative_width := false,
           height := 0, x := 0 }
    scr_w := 500
    measure := fun _ => (10, 20)
    fs := fun _ => FileState.absent
    icon_dirs := []
    parseMarkup := fun _ => none
    markupStrip := fun t => t
    decodeRaw := fun _ => none
    updateTTR := fun n => n.text_to_render }

/-- A concrete icon-less layout for the fixed-width environment. -/
def plainLayout : ColoredLayout :=
  { l := { text := "", attrs := none, widthSetting := 98 }, fg := ⟨0, 0, 0⟩,
    bg := ⟨0, 0, 0⟩, frame := ⟨0, 0, 0⟩, text := none, attr := none,
    icon := none, n := nullNotification }

/-- A dynamic-width environment: frame width 2, no paddings, output width
100, content measuring 9x10. -/
def dynEnv : Env :=
  { baseEnv with
      s := { baseEnv.s with frame_width := 2, padding := 0, separator_height := 0 }
      g := { dynamic_width := true, width := 0, negative_width := false,
             height := 0, x := 0 }
      scr_w := 100
      measure := fun _ => (9, 10) }

/-- The dynamic-width environment with content measuring 99 pixels wide:
99 + 2 frames = 103 exceeds the 100-pixel output. -/
def wideEnv : Env := { dynEnv with measure := fun _ => (99, 10) }

/-- A layout configured for dynamic width (unbounded Pango width). -/
def dynLayout : ColoredLayout :=
  { plainLayout with l := { text := "", attrs := none, widthSetting := -1 } }

/-- A decoded 24x24 image. -/
def imgC8 : Image := ⟨24, 24⟩

/-- A filesystem with an existing-but-undecodable `d/ic.svg` shadowing a
decodable `d/ic.png`. -/
def fsShadow : String → FileState := fun p =>
  if p = "d/ic.svg" then FileState.undecodable
  else if p = "d/ic.png" then FileState.decodable imgC8
  else FileState.absent

/-- The base environment searching that filesystem in directory `d`. -/
def iconEnv : Env := { baseEnv with fs := fsShadow, icon_dirs := ["d"] }

/-- A concrete notification whose markup fails to parse under `baseEnv`. -/
def noteA : Notification :=
  ⟨"hello", true, 0, 1, "#111111", "#222222", "#333333", none, none, false⟩

theorem hexVal_lt_16 {c : Char} {v : Nat} (h : hexVal c = some v) : v < 16 := by
  simp only [hexVal] at h
  split_ifs at h with h1 h2 h3 <;> simp_all <;> omega

theorem hexVal_toNat_range {c : Char} {v : Nat} (h : hexVal c = some v) :
    (48 ≤ c.toNat ∧ c.toNat ≤ 57) ∨ (97 ≤ c.toNat ∧ c.toNat ≤ 102) ∨
      (65 ≤ c.toNat ∧ c.toNat ≤ 70) := by
  simp only [hexVal] at h
  split_ifs at h with h1 h2 h3 <;> simp_all

theorem hexVal_not_space {c : Char} {v : Nat} (h : hexVal c = some v) :
    isSpaceChar c = false := by
  have := hexVal_toNat_range h
  simp only [isSpaceChar, decide_eq_false_iff_not]
  omega

theorem hexVal_ne_char {c : Char} {v : Nat} (h : hexVal c = some v) (d : Char)
    (hd : hexVal d = none) : ¬(c = d) := fun hcd => by
  rw [hcd, hd] at h
  cases h

theorem strtol_hex_go_digits {hx : List Char} (hhx : ∀ c ∈ hx, (hexVal c).isSome) :
    ∀ acc gb, strtol_hex_go LONG_MAX acc (hx ++ gb) =
      strtol_hex_go LONG_MAX (hexFold acc hx) gb := by
  induction hx with
  | nil => intro acc gb; simp [hexFold]
  | cons c cs ih =>
      intro acc gb
      have hc : (hexVal c).isSome := hhx c (List.mem_cons_self c cs)
      obtain ⟨v, hv⟩ := Option.isSome_iff_exists.mp hc
      have hcs : ∀ x ∈ cs, (hexVal x).isSome :=
        fun x hxm => hhx x (List.mem_cons_of_mem c hxm)
      simp only [List.cons_append, strtol_hex_go, hv, List.append_eq]
      rw [ih hcs]
      simp [hexFold, hv]

theorem strtol_hex_go_stop (cut : Nat) {gb : List Char}
    (hgb : ∀ c cs, gb = c :: cs → hexVal c = none) (acc : Nat) :
    strtol_hex_go cut acc gb = (acc, gb) := by
  cases gb with
  | nil => simp [strtol_hex_go]
  | cons c cs => simp [strtol_hex_go, hgb c cs rfl]

theorem strtol_hex_decomp {hx gb : List Char} (hhx : ∀ c ∈ hx, (hexVal c).isSome)
    (hgb : ∀ c cs, gb = c :: cs → hexVal c = none) :
    strtol_hex_go LONG_MAX 0 (hx ++ gb) = (hexFold 0 hx, gb) := by
  rw [strtol_hex_go_digits hhx, strtol_hex_go_stop LONG_MAX hgb]

theorem rawHexFold_acc_le : ∀ (l : List Char) (acc : Nat), acc ≤ rawHexFold acc l := by
  intro l
  induction l with
  | nil => intro acc; exact Nat.le_refl acc
  | cons c cs ih =>
      intro acc
      have h1 : rawHexFold acc (c :: cs) =
          rawHexFold (16 * acc + (hexVal c).getD 0) cs := rfl
      rw [h1]
      exact le_trans (by omega) (ih _)

theorem hexFold_eq_raw : ∀ (l : List Char) (acc : Nat), rawHexFold acc l ≤ LONG_MAX →
    hexFold acc l = rawHexFold acc l := by
  intro l
  induction l with
  | nil => intro acc _; rfl
  | cons c cs ih =>
      intro acc hb
      have hraw : rawHexFold acc (c :: cs) =
          rawHexFold (16 * acc + (hexVal c).getD 0) cs := rfl
      have hstep : 16 * acc + (hexVal c).getD 0 ≤ LONG_MAX := by
        have := rawHexFold_acc_le cs (16 * acc + (hexVal c).getD 0)
        rw [hraw] at hb
        omega
      have hfold : hexFold acc (c :: cs) =
          hexFold (16 * acc + (hexVal c).getD 0) cs := by
        simp only [hexFold, List.foldl_cons]
        rw [if_neg (by omega)]
      rw [hfold, hraw]
      exact ih _ (by rw [hraw] at hb; exact hb)

theorem strtol16_digits (hx gb : List Char) (hne : hx ≠ [])
    (hhx : ∀ c ∈ hx, (hexVal c).isSome)
    (hgb : ∀ g ∈ gb.take 1, hexVal g = none ∧ ¬(g = 'x') ∧ ¬(g = 'X')) :
    strtol16 (hx ++ gb) = (((hexFold 0 hx : Nat) : Int), gb) := by
  obtain ⟨h0, hxr, rfl⟩ : ∃ h0 hxr, hx = h0 :: hxr := by
    cases hx with
    | nil => exact absurd rfl hne
    | cons a b => exact ⟨a, b, rfl⟩
  have hh0 : (hexVal h0).isSome := hhx h0 (List.mem_cons_self h0 hxr)
  obtain ⟨v0, hv0⟩ := Option.isSome_iff_exists.mp hh0
  have hsp : isSpaceChar h0 = false := hexVal_not_space hv0
  have hminus : ¬(h0 = '-') := hexVal_ne_char hv0 '-' (by decide)
  have hplus : ¬(h0 = '+') := hexVal_ne_char hv0 '+' (by decide)
  have hgb2 : ∀ c cs, gb = c :: cs → hexVal c = none := by
    intro c cs hc
    exact (hgb c (by rw [hc]; simp)).1
  have hscan : strtol_hex_go LONG_MAX 0 (h0 :: (hxr ++ gb)) =
      (hexFold 0 (h0 :: hxr), gb) := by
    have := strtol_hex_decomp hhx hgb2
    simpa using this
  unfold strtol16
  simp only [List.cons_append, List.dropWhile_cons, hsp, Bool.false_eq_true, if_false,
    ite_false, hminus, hplus, decide_eq_false, decide_False, Bool.or_self, Bool.false_or, hv0,
    Option.isSome_some, if_true, ite_true, Bool.or_false]
  cases hxr with
  | nil =>
      cases gb with
      | nil =>
          simp only [List.nil_append, hv0, Option.isSome_some, if_true, ite_true]
          rw [show strtol_hex_go LONG_MAX 0 [h0] = (hexFold 0 [h0], ([] : List Char))
            from by simpa using hscan]
      | cons g gs =>
          have hgx := hgb g (by simp)
          cases gs with
          | nil =>
              simp only [List.nil_append, hv0, Option.isSome_some, if_true, ite_true]
              rw [show strtol_hex_go LONG_MAX 0 [h0, g] = (hexFold 0 [h0], [g])
                from by simpa using hscan]
          | cons g2 gs2 =>
              simp only [List.nil_append, hgx.2.1, hgx.2.2, decide_eq_false, decide_False,
                Bool.false_or, Bool.or_self, Bool.and_false, Bool.false_and,
                Bool.false_eq_true, if_false, ite_false, hv0, Option.isSome_some,
                if_true, ite_true]
              rw [show strtol_hex_go LONG_MAX 0 (h0 :: g :: g2 :: gs2) =
                  (hexFold 0 [h0], g :: g2 :: gs2) from by simpa using hscan]
  | cons x1 hxr2 =>
      have hx1s : (hexVal x1).isSome := hhx x1 (by simp)
      obtain ⟨w1, hw1⟩ := Option.isSome_iff_exists.mp hx1s
      have hx1x : ¬(x1 = 'x') := hexVal_ne_char hw1 'x' (by decide)
      have hx1X : ¬(x1 = 'X') := hexVal_ne_char hw1 'X' (by decide)
      cases hrest : hxr2 ++ gb with
      | nil =>
          simp only [List.cons_append, hrest, hv0, Option.isSome_some, if_true, ite_true]
          rw [show strtol_hex_go LONG_MAX 0 [h0, x1] =
              (hexFold 0 (h0 :: x1 :: hxr2), gb) from by
            have := hscan
            simp only [List.cons_append, hrest] at this
            exact this]
      | cons y ys =>
          simp only [List.cons_append, hrest, hx1x, hx1X, decide_eq_false, decide_False,
            Bool.false_or, Bool.or_self, Bool.and_false, Bool.false_and,
            Bool.false_eq_true, if_false, ite_false, hv0, Option.isSome_some,
            if_true, ite_true]
          rw [show strtol_hex_go LONG_MAX 0 (h0 :: x1 :: y :: ys) =
              (hexFold 0 (h0 :: x1 :: hxr2), gb) from by
            have := hscan
            simp only [List.cons_append, hrest] at this
            exact this]

theorem u32ofInt_natCast (v : Nat) : u32ofInt ((v : Nat) : Int) = v % 4294967296 := by
  unfold u32ofInt M32
  omega

theorem x_color_hex_to_double_mod (v : Nat) :
    x_color_hex_to_double (v % 4294967296) = x_color_hex_to_double v := by
  have b1 : (v % 4294967296) >>> 16 &&& 255 = v >>> 16 &&& 255 := by
    rw [Nat.shiftRight_eq_div_pow, Nat.shiftRight_eq_div_pow,
      show (255 : Nat) = 2 ^ 8 - 1 from rfl, Nat.and_pow_two_sub_one_eq_mod,
      Nat.and_pow_two_sub_one_eq_mod]
    omega
  have b2 : (v % 4294967296) >>> 8 &&& 255 = v >>> 8 &&& 255 := by
    rw [Nat.shiftRight_eq_div_pow, Nat.shiftRight_eq_div_pow,
      show (255 : Nat) = 2 ^ 8 - 1 from rfl, Nat.and_pow_two_sub_one_eq_mod,
      Nat.and_pow_two_sub_one_eq_mod]
    omega
  have b3 : (v % 4294967296) &&& 255 = v &&& 255 := by
    rw [show (255 : Nat) = 2 ^ 8 - 1 from rfl, Nat.and_pow_two_sub_one_eq_mod,
      Nat.and_pow_two_sub_one_eq_mod]
    omega
  simp [x_color_hex_to_double, b1, b2, b3]

/-- Claim C5 counterexample: the gray color (0.8, 0.8, 0.8) has no channel at
a clamp boundary and no clamping occurs, yet two applications of
`calculate_foreground_color` move the channel mean from 0.8 to 0.7 to 0.6 —
monotonically TOWARD 0.5, not further from it as the claim states. -/
theorem C5_counterexample :
    ((0 : ℚ) < 4 / 5 ∧ (4 : ℚ) / 5 < 1) ∧
      calculate_foreground_color ⟨4 / 5, 4 / 5, 4 / 5⟩ = ⟨7 / 10, 7 / 10, 7 / 10⟩ ∧
      calculate_foreground_color ⟨7 / 10, 7 / 10, 7 / 10⟩ = ⟨3 / 5, 3 / 5, 3 / 5⟩ ∧
      |channelMean ⟨3 / 5, 3 / 5, 3 / 5⟩ - 1 / 2| <
        |channelMean ⟨7 / 10, 7 / 10, 7 / 10⟩ - 1 / 2| := by
  refine ⟨by norm_num, ?_, ?_, by norm_num [channelMean, abs]⟩ <;>
    norm_num [calculate_foreground_color, _apply_delta, channelMean]

/-- Claim C5 (amended): when every channel is at least 0.1 away from both
clamp boundaries, a single application of `calculate_foreground_color` moves
the channel mean by exactly 0.1 toward 0.5 — down when the mean exceeds 0.5,
up otherwise — and the function is never the identity; repeated application
therefore oscillates around 0.5 rather than moving monotonically away. -/
theorem C5_contrast_shift (bg : color_t)
    (hr1 : 1 / 10 ≤ bg.r) (hr2 : bg.r ≤ 9 / 10)
    (hg1 : 1 / 10 ≤ bg.g) (hg2 : bg.g ≤ 9 / 10)
    (hb1 : 1 / 10 ≤ bg.b) (hb2 : bg.b ≤ 9 / 10) :
    calculate_foreground_color bg ≠ bg ∧
      channelMean (calculate_foreground_color bg) =
        (if 1 / 2 < channelMean bg then channelMean bg - 1 / 10
         else channelMean bg + 1 / 10) := by
  by_cases hd : (1 : ℚ) / 2 < channelMean bg
  · have hdec : (decide ((1 : ℚ) / 2 < (bg.r + bg.g + bg.b) / 3)) = true := decide_eq_true hd
    have hf : calculate_foreground_color bg =
        ⟨bg.r - 1 / 10, bg.g - 1 / 10, bg.b - 1 / 10⟩ := by
      simp only [calculate_foreground_color, _apply_delta, hdec, if_true]
      simp only [color_t.mk.injEq]
      refine ⟨?_, ?_, ?_⟩ <;> (split_ifs <;> first | linarith | ring)
    refine ⟨?_, ?_⟩
    · rw [hf]
      intro hcon
      have := congrArg color_t.r hcon
      simp only at this
      linarith
    · rw [hf, if_pos hd]
      simp only [channelMean]
      ring
  · have hdec : (decide ((1 : ℚ) / 2 < (bg.r + bg.g + bg.b) / 3)) = false :=
      decide_eq_false hd
    have hf : calculate_foreground_color bg =
        ⟨bg.r + 1 / 10, bg.g + 1 / 10, bg.b + 1 / 10⟩ := by
      simp only [calculate_foreground_color, _apply_delta, hdec, if_false,
        Bool.false_eq_true]
      simp only [color_t.mk.injEq]
      refine ⟨?_, ?_, ?_⟩ <;> (split_ifs <;> first | linarith | ring)
    refine ⟨?_, ?_⟩
    · rw [hf]
      intro hcon
      have := congrArg color_t.r hcon
      simp only at this
      linarith
    · rw [hf, if_neg hd]
      simp only [channelMean]
      ring

/-- Witness for C5: the dark gray (0.2, 0.2, 0.2) is brightened by exactly
0.1 and is not a fixed point. -/
theorem C5_contrast_shift_witness :
    calculate_foreground_color ⟨1 / 5, 1 / 5, 1 / 5⟩ ≠ ⟨1 / 5, 1 / 5, 1 / 5⟩ ∧
      channelMean (calculate_foreground_color ⟨1 / 5, 1 / 5, 1 / 5⟩) =
        (if 1 / 2 < channelMean ⟨1 / 5, 1 / 5, 1 / 5⟩ then
          channelMean ⟨1 / 5, 1 / 5, 1 / 5⟩ - 1 / 10
         else channelMean ⟨1 / 5, 1 / 5, 1 / 5⟩ + 1 / 10) :=
  C5_contrast_shift ⟨1 / 5, 1 / 5, 1 / 5⟩ (by norm_num) (by norm_num) (by norm_num)
    (by norm_num) (by norm_num) (by norm_num)

/-- Claim C6 counterexample: the malformed color string "#00ff0g" has the
non-hex character g immediately after the parsed prefix, yet
`x_string_to_color_t` prints no warning — the warning fires only when at
least two unparsed characters remain (`*end` and `*(end+1)` both non-NUL). -/
theorem C6_counterexample :
    strtol16 (("#00ff0g".data).tail) = ((4080 : Int), ['g']) ∧
      hexVal 'g' = none ∧
      (x_string_to_color_t ("#00ff0g".data)).2 = false := by
  refine ⟨by decide, by decide, by decide⟩

/-- Claim C6 (amended): for a color string made of a marker character, a
nonempty hex prefix and a trailing garbage tail whose first character is
neither a hex digit nor the x/X of strtol's 0x form, `x_string_to_color_t`
always returns the best-effort color of the parsed prefix's value (saturated
at LONG_MAX, as strtol saturates) and never fails; the warning is printed
exactly when at least two garbage characters remain — a single trailing
garbage character is accepted silently. -/
theorem C6_malformed_color (m : Char) (hx gb : List Char) (hne : hx ≠ [])
    (hhx : ∀ c ∈ hx, (hexVal c).isSome)
    (hgb : ∀ g ∈ gb.take 1, hexVal g = none ∧ ¬(g = 'x') ∧ ¬(g = 'X')) :
    x_string_to_color_t (m :: hx ++ gb) =
      (x_color_hex_to_double (hexFold 0 hx), decide (2 ≤ gb.length)) := by
  have hs := strtol16_digits hx gb hne hhx hgb
  simp only [x_string_to_color_t, List.cons_append, List.tail_cons]
  rw [show hx ++ gb = hx ++ gb from rfl]
  simp only [hs, u32ofInt_natCast, x_color_hex_to_double_mod]
  cases gb with
  | nil => simp
  | cons c cs => cases cs <;> simp

/-- Witness for C6: parsing "#00ff0" followed by the single garbage
character g returns the color of 0x00ff0 and no warning. -/
theorem C6_malformed_color_witness :
    x_string_to_color_t ('#' :: ['0', '0', 'f', 'f', '0'] ++ ['g']) =
      (x_color_hex_to_double (hexFold 0 ['0', '0', 'f', 'f', '0']),
        decide (2 ≤ (['g'] : List Char).length)) :=
  C6_malformed_color '#' ['0', '0', 'f', 'f', '0'] ['g'] (List.cons_ne_nil _ _)
    (by decide) (by decide)

/-- Claim C7: for every color string of a marker character followed by
exactly six hex digits, `x_string_to_color_t` returns channels equal to the
three extracted bytes divided by 255, each lying within [0, 1]. -/
theorem C7_valid_hex_color (m d1 d2 d3 d4 d5 d6 : Char) (v1 v2 v3 v4 v5 v6 : Nat)
    (h1 : hexVal d1 = some v1) (h2 : hexVal d2 = some v2)
    (h3 : hexVal d3 = some v3) (h4 : hexVal d4 = some v4)
    (h5 : hexVal d5 = some v5) (h6 : hexVal d6 = some v6) :
    (x_string_to_color_t [m, d1, d2, d3, d4, d5, d6]).1.r =
        ((16 * v1 + v2 : Nat) : ℚ) / 255 ∧
    (x_string_to_color_t [m, d1, d2, d3, d4, d5, d6]).1.g =
        ((16 * v3 + v4 : Nat) : ℚ) / 255 ∧
    (x_string_to_color_t [m, d1, d2, d3, d4, d5, d6]).1.b =
        ((16 * v5 + v6 : Nat) : ℚ) / 255 ∧
    0 ≤ (x_string_to_color_t [m, d1, d2, d3, d4, d5, d6]).1.r ∧
    (x_string_to_color_t [m, d1, d2, d3, d4, d5, d6]).1.r ≤ 1 ∧
    0 ≤ (x_string_to_color_t [m, d1, d2, d3, d4, d5, d6]).1.g ∧
    (x_string_to_color_t [m, d1, d2, d3, d4, d5, d6]).1.g ≤ 1 ∧
    0 ≤ (x_string_to_color_t [m, d1, d2, d3, d4, d5, d6]).1.b ∧
    (x_string_to_color_t [m, d1, d2, d3, d4, d5, d6]).1.b ≤ 1 := by
  have e1 := hexVal_lt_16 h1
  have e2 := hexVal_lt_16 h2
  have e3 := hexVal_lt_16 h3
  have e4 := hexVal_lt_16 h4
  have e5 := hexVal_lt_16 h5
  have e6 := hexVal_lt_16 h6
  have hall : ∀ c ∈ [d1, d2, d3, d4, d5, d6], (hexVal c).isSome := by
    intro c hc
    simp only [List.mem_cons, List.not_mem_nil, or_false] at hc
    rcases hc with rfl | rfl | rfl | rfl | rfl | rfl <;>
      simp [h1, h2, h3, h4, h5, h6]
  have hraw : rawHexFold 0 [d1, d2, d3, d4, d5, d6] =
      16 * (16 * (16 * (16 * (16 * (16 * 0 + v1) + v2) + v3) + v4) + v5) + v6 := by
    simp [rawHexFold, h1, h2, h3, h4, h5, h6]
  have hbnd : rawHexFold 0 [d1, d2, d3, d4, d5, d6] ≤ LONG_MAX := by
    rw [hraw]
    unfold LONG_MAX
    omega
  have hfold : hexFold 0 [d1, d2, d3, d4, d5, d6] =
      16 * (16 * (16 * (16 * (16 * (16 * 0 + v1) + v2) + v3) + v4) + v5) + v6 := by
    rw [hexFold_eq_raw _ _ hbnd, hraw]
  have hscan : strtol16 [d1, d2, d3, d4, d5, d6] =
      (((hexFold 0 [d1, d2, d3, d4, d5, d6] : Nat) : Int), []) := by
    have := strtol16_digits [d1, d2, d3, d4, d5, d6] [] (List.cons_ne_nil _ _) hall
      (fun g hg => absurd hg (List.not_mem_nil g))
    simpa using this
  have hVlt : hexFold 0 [d1, d2, d3, d4, d5, d6] < 4294967296 := by
    rw [hfold]
    omega
  have hu : u32ofInt ((hexFold 0 [d1, d2, d3, d4, d5, d6] : Nat) : Int) =
      hexFold 0 [d1, d2, d3, d4, d5, d6] := by
    rw [u32ofInt_natCast, Nat.mod_eq_of_lt hVlt]
  have hb1 : (16 * (16 * (16 * (16 * (16 * (16 * 0 + v1) + v2) + v3) + v4) + v5) + v6)
      >>> 16 &&& 255 = 16 * v1 + v2 := by
    rw [Nat.shiftRight_eq_div_pow]
    rw [show (255 : Nat) = 2 ^ 8 - 1 from rfl, Nat.and_pow_two_sub_one_eq_mod]
    omega
  have hb2 : (16 * (16 * (16 * (16 * (16 * (16 * 0 + v1) + v2) + v3) + v4) + v5) + v6)
      >>> 8 &&& 255 = 16 * v3 + v4 := by
    rw [Nat.shiftRight_eq_div_pow]
    rw [show (255 : Nat) = 2 ^ 8 - 1 from rfl, Nat.and_pow_two_sub_one_eq_mod]
    omega
  have hb3 : (16 * (16 * (16 * (16 * (16 * (16 * 0 + v1) + v2) + v3) + v4) + v5) + v6)
      &&& 255 = 16 * v5 + v6 := by
    rw [show (255 : Nat) = 2 ^ 8 - 1 from rfl, Nat.and_pow_two_sub_one_eq_mod]
    omega
  have hcol : (x_string_to_color_t [m, d1, d2, d3, d4, d5, d6]).1 =
      ⟨((16 * v1 + v2 : Nat) : ℚ) / 255, ((16 * v3 + v4 : Nat) : ℚ) / 255,
        ((16 * v5 + v6 : Nat) : ℚ) / 255⟩ := by
    simp only [x_string_to_color_t, List.tail_cons, hscan]
    rw [hu, hfold]
    simp only [x_color_hex_to_double, hb1, hb2, hb3]
  have q1 : ((16 * v1 + v2 : Nat) : ℚ) ≤ 255 := by
    exact_mod_cast Nat.le_of_lt_succ (by omega)
  have q2 : ((16 * v3 + v4 : Nat) : ℚ) ≤ 255 := by
    exact_mod_cast Nat.le_of_lt_succ (by omega)
  have q3 : ((16 * v5 + v6 : Nat) : ℚ) ≤ 255 := by
    exact_mod_cast Nat.le_of_lt_succ (by omega)
  rw [hcol]
  refine ⟨rfl, rfl, rfl, by positivity, ?_, by positivity, ?_, by positivity, ?_⟩ <;>
    (show _ / _ ≤ (1 : ℚ); rw [div_le_one (by norm_num)]) <;> assumption

/-- Witness for C7: the string "#336699" yields channels 51/255, 102/255 and
153/255. -/
theorem C7_valid_hex_color_witness :
    (x_string_to_color_t ['#', '3', '3', '6', '6', '9', '9']).1.r =
        ((16 * 3 + 3 : Nat) : ℚ) / 255 ∧
    (x_string_to_color_t ['#', '3', '3', '6', '6', '9', '9']).1.g =
        ((16 * 6 + 6 : Nat) : ℚ) / 255 ∧
    (x_string_to_color_t ['#', '3', '3', '6', '6', '9', '9']).1.b =
        ((16 * 9 + 9 : Nat) : ℚ) / 255 ∧
    0 ≤ (x_string_to_color_t ['#', '3', '3', '6', '6', '9', '9']).1.r ∧
    (x_string_to_color_t ['#', '3', '3', '6', '6', '9', '9']).1.r ≤ 1 ∧
    0 ≤ (x_string_to_color_t ['#', '3', '3', '6', '6', '9', '9']).1.g ∧
    (x_string_to_color_t ['#', '3', '3', '6', '6', '9', '9']).1.g ≤ 1 ∧
    0 ≤ (x_string_to_color_t ['#', '3', '3', '6', '6', '9', '9']).1.b ∧
    (x_string_to_color_t ['#', '3', '3', '6', '6', '9', '9']).1.b ≤ 1 :=
  C7_valid_hex_color '#' '3' '3' '6' '6' '9' '9' 3 3 6 6 9 9 (by decide) (by decide)
    (by decide) (by decide) (by decide) (by decide)

theorem calc_foldl_fixed (env : Env) (hdyn : env.g.dynamic_width = false)
    (hshr : env.s.shrink = false) :
    ∀ (l : List ColoredLayout) (st : CalcState), st.dimH < M32 →
      List.foldl (calc_step env) st l =
        ⟨st.dimW, (st.dimH + stackContentHeight env l) % M32,
         List.foldl (fun a cl => max (contentSize env cl.l cl.icon).1 a) st.text_width l,
         st.total_width, st.outLayouts ++ l⟩ := by
  intro l
  induction l with
  | nil =>
      intro st hst
      simp [stackContentHeight, Nat.mod_eq_of_lt hst]
  | cons cl rest ih =>
      intro st hst
      have hstep : calc_step env st cl =
          ⟨st.dimW, (st.dimH + cardHeight env cl) % M32,
           max (contentSize env cl.l cl.icon).1 st.text_width,
           st.total_width, st.outLayouts ++ [cl]⟩ := by
        simp [calc_step, hdyn, hshr, uadd, cardHeight]
      simp only [List.foldl_cons, hstep]
      rw [ih _ (Nat.mod_lt _ (by norm_num [M32]))]
      simp only [stackContentHeight, List.map_cons, List.sum_cons]
      congr 1
      · rw [Nat.mod_add_mod, Nat.add_assoc]
      · simp

theorem calculate_dimensions_h_fixed (env : Env) (layouts : List ColoredLayout)
    (hdyn : env.g.dynamic_width = false) (hshr : env.s.shrink = false)
    (hne : layouts ≠ []) (hlen : layouts.length < M32)
    (hsep : env.s.separator_height < M32)
    (hbound : 2 * env.s.frame_width + (layouts.length - 1) * env.s.separator_height +
      stackContentHeight env layouts < M32) :
    ((calculate_dimensions env layouts).1).h =
      2 * env.s.frame_width + (layouts.length - 1) * env.s.separator_height +
        stackContentHeight env layouts := by
  have hn1 : 1 ≤ layouts.length := List.length_pos.mpr hne
  have h0eq : uadd (uadd 0 (2 * env.s.frame_width))
      (umul (usub (u32 layouts.length) 1) env.s.separator_height) =
      (2 * env.s.frame_width + (layouts.length - 1) * env.s.separator_height) % M32 := by
    have hu : usub (u32 layouts.length) 1 = layouts.length - 1 := by
      unfold usub u32 M32 at *
      omega
    rw [hu]
    unfold uadd umul M32 at *
    have hmul : (layouts.length - 1) % 4294967296 *
        (env.s.separator_height % 4294967296) % 4294967296 =
        ((layouts.length - 1) * env.s.separator_height) % 4294967296 := by
      rw [Nat.mod_eq_of_lt (show layouts.length - 1 < 4294967296 by omega),
          Nat.mod_eq_of_lt (show env.s.separator_height < 4294967296 by omega)]
    rw [hmul]
    omega
  simp only [calculate_dimensions]
  rw [calc_foldl_fixed env hdyn hshr layouts _ (Nat.mod_lt _ (by norm_num [M32]))]
  simp only [h0eq]
  rw [Nat.mod_add_mod, Nat.mod_eq_of_lt hbound]

/-- Claim C2: for a fixed-width, non-shrink configuration and a nonempty
layout list, the total height computed by `calculate_dimensions` equals
2*frame_width + (n-1)*separator_height plus the sum over all cards of
max(notification_height, content height + 2*padding), provided the nominal
total stays below 2^32. -/
theorem C2_height_accumulation (env : Env) (layouts : List ColoredLayout)
    (hdyn : env.g.dynamic_width = false) (hshr : env.s.shrink = false)
    (hne : layouts ≠ []) (hlen : layouts.length < M32)
    (hsep : env.s.separator_height < M32)
    (hbound : 2 * env.s.frame_width + (layouts.length - 1) * env.s.separator_height +
      stackContentHeight env layouts < M32) :
    ((calculate_dimensions env layouts).1).h =
      2 * env.s.frame_width + (layouts.length - 1) * env.s.separator_height +
        stackContentHeight env layouts :=
  calculate_dimensions_h_fixed env layouts hdyn hshr hne hlen hsep hbound

/-- Witness for C2: one 10x20 card at padding 5, frame 1, separator 1 gives
height 2 + 0 + 30 = 32. -/
theorem C2_height_accumulation_witness :
    ((calculate_dimensions baseEnv [plainLayout]).1).h =
      2 * baseEnv.s.frame_width +
        (([plainLayout] : List ColoredLayout).length - 1) * baseEnv.s.separator_height +
        stackContentHeight baseEnv [plainLayout] :=
  C2_height_accumulation baseEnv [plainLayout] rfl rfl (List.cons_ne_nil _ _)
    (by decide) (by decide) (by decide)

/-- Claim C10: with the empty layout list (as passed by `r_init_shared`),
`(g_slist_length - 1) * separator_height` underflows in unsigned 32-bit
arithmetic, so for every positive separator height the computed height is
2*frame_width - separator_height modulo 2^32, while the returned width is
still the configured fixed width. -/
theorem C10_empty_layouts_underflow (env : Env)
    (hdyn : env.g.dynamic_width = false) (hwne : env.g.width ≠ 0)
    (hneg : env.g.negative_width = false) (hwlt : env.g.width < M32)
    (hsep0 : 0 < env.s.separator_height) :
    ((((calculate_dimensions env ([] : List ColoredLayout)).1).h : Int) =
      (2 * (env.s.frame_width : Int) - env.s.separator_height) % (M32 : Int)) ∧
    ((calculate_dimensions env ([] : List ColoredLayout)).1).w = env.g.width := by
  simp only [calculate_dimensions, List.foldl_nil, List.length_nil, hdyn, hneg, hwne,
    Bool.false_eq_true, if_false, ite_false, ne_eq, not_false_iff, if_true]
  constructor
  · unfold uadd umul usub u32 M32
    norm_num
    omega
  · have hw1 : env.g.width % 4294967296 = env.g.width :=
      Nat.mod_eq_of_lt (by simpa [M32] using hwlt)
    simp only [u32, M32, hw1, hwne, if_false, ite_false]

/-- Witness for C10: frame width 1 and separator height 1 give height
(2 - 1) mod 2^32 = 1 and the configured width 100. -/
theorem C10_empty_layouts_underflow_witness :
    ((((calculate_dimensions baseEnv ([] : List ColoredLayout)).1).h : Int) =
      (2 * (baseEnv.s.frame_width : Int) - baseEnv.s.separator_height) % (M32 : Int)) ∧
    ((calculate_dimensions baseEnv ([] : List ColoredLayout)).1).w = baseEnv.g.width :=
  C10_empty_layouts_underflow baseEnv rfl (by decide) rfl (by decide) (by decide)

theorem x_render_layout_y (env : Env) (cl : ColoredLayout) (cl_next : Option ColoredLayout)
    (dim : dimension_t) (first last : Bool) :
    (x_render_layout env cl cl_next dim first last).y =
      dim.y + (if first then (env.s.frame_width : Int) else 0) + (cardHeight env cl : Int) +
        (if last then 0 else (env.s.separator_height : Int)) := by
  simp only [x_render_layout, cardHeight, contentSize, layoutPixelSize]
  cases cl.icon with
  | none =>
      by_cases hp : env.s.notification_height ≤ 2 * env.s.padding + (env.measure cl.l).2
      · have hmax : max env.s.notification_height ((env.measure cl.l).2 + env.s.padding * 2) =
            (env.measure cl.l).2 + env.s.padding * 2 := by omega
        simp only [hmax, hp, decide_eq_true_eq, if_true, decide_eq_true]
        cases first <;> cases last <;> by_cases hs : 0 < env.s.separator_height <;>
          simp only [hs, decide_eq_true_eq, if_true, if_false, decide_eq_true,
            decide_eq_false, Bool.true_and, Bool.false_and, Bool.and_true, Bool.and_false,
            Bool.not_true, Bool.not_false, ite_true, ite_false, not_false_iff] <;>
          push_cast <;> omega
      · have hmax : max env.s.notification_height ((env.measure cl.l).2 + env.s.padding * 2) =
            env.s.notification_height := by omega
        simp only [hmax, hp, decide_eq_true_eq, decide_eq_false, if_false]
        cases first <;> cases last <;> by_cases hs : 0 < env.s.separator_height <;>
          simp only [hs, decide_eq_true_eq, if_true, if_false, decide_eq_true,
            decide_eq_false, Bool.true_and, Bool.false_and, Bool.and_true, Bool.and_false,
            Bool.not_true, Bool.not_false, ite_true, ite_false, not_false_iff] <;>
          push_cast <;> omega
  | some ic =>
      by_cases hp : env.s.notification_height ≤
          2 * env.s.padding + max ic.height (env.measure cl.l).2
      · have hmax : max env.s.notification_height
            (max ic.height (env.measure cl.l).2 + env.s.padding * 2) =
            max ic.height (env.measure cl.l).2 + env.s.padding * 2 := by omega
        simp only [hmax, hp, decide_eq_true_eq, if_true, decide_eq_true]
        cases first <;> cases last <;> by_cases hs : 0 < env.s.separator_height <;>
          simp only [hs, decide_eq_true_eq, if_true, if_false, decide_eq_true,
            decide_eq_false, Bool.true_and, Bool.false_and, Bool.and_true, Bool.and_false,
            Bool.not_true, Bool.not_false, ite_true, ite_false, not_false_iff] <;>
          push_cast <;> omega
      · have hmax : max env.s.notification_height
            (max ic.height (env.measure cl.l).2 + env.s.padding * 2) =
            env.s.notification_height := by omega
        simp only [hmax, hp, decide_eq_true_eq, decide_eq_false, if_false]
        cases first <;> cases last <;> by_cases hs : 0 < env.s.separator_height <;>
          simp only [hs, decide_eq_true_eq, if_true, if_false, decide_eq_true,
            decide_eq_false, Bool.true_and, Bool.false_and, Bool.and_true, Bool.and_false,
            Bool.not_true, Bool.not_false, ite_true, ite_false, not_false_iff] <;>
          push_cast <;> omega

theorem renderLoop_y (env : Env) :
    ∀ (l : List ColoredLayout) (dim : dimension_t) (first : Bool), l ≠ [] →
      (renderLoop env dim first l).y =
        dim.y + (if first then (env.s.frame_width : Int) else 0) +
          (stackContentHeight env l : Int) +
          ((l.length - 1 : Nat) : Int) * env.s.separator_height := by
  intro l
  induction l with
  | nil => intro dim first h; exact absurd rfl h
  | cons cl rest ih =>
      intro dim first _
      cases rest with
      | nil =>
          simp only [renderLoop, x_render_layout_y, stackContentHeight, List.map_cons,
            List.map_nil, List.sum_cons, List.sum_nil, List.length_cons, List.length_nil,
            Nat.add_sub_cancel, ite_true, if_true]
          push_cast
          ring
      | cons cl2 rest2 =>
          simp only [renderLoop]
          rw [ih _ _ (by simp)]
          rw [x_render_layout_y]
          simp only [stackContentHeight, List.map_cons, List.sum_cons, List.length_cons,
            Nat.add_sub_cancel, ite_false, if_false]
          push_cast
          ring

theorem calc_out_fixed (env : Env) (hdyn : env.g.dynamic_width = false)
    (hshr : env.s.shrink = false) (layouts : List ColoredLayout) :
    (calculate_dimensions env layouts).2 = layouts := by
  simp only [calculate_dimensions]
  rw [calc_foldl_fixed env hdyn hshr layouts _ (Nat.mod_lt _ (by norm_num [M32]))]
  simp

theorem calc_y_zero (env : Env) (layouts : List ColoredLayout) :
    ((calculate_dimensions env layouts).1).y = 0 := rfl

/-- Claim C1 counterexample: with frame width 1, separator height 1, padding
5 and one 10x20 card, the render loop advances the cursor to 31 while
`calculate_dimensions` computes a stack height of 32 — the sum of cursor
advances does not equal the computed height. -/
theorem C1_counterexample :
    (renderLoop baseEnv (calculate_dimensions baseEnv [plainLayout]).1 true
        (calculate_dimensions baseEnv [plainLayout]).2).y = 31 ∧
      ((calculate_dimensions baseEnv [plainLayout]).1).h = 32 := by
  constructor <;> rfl

theorem calculate_dimensions_snd (env : Env) (layouts : List ColoredLayout) :
    (calculate_dimensions env layouts).2 =
      (layouts.foldl (calc_step env)
        ⟨calcW0 env, calcH0 env layouts.length, 0, 0, []⟩).outLayouts := rfl

theorem calculate_dimensions_fst_h (env : Env) (layouts : List ColoredLayout) :
    ((calculate_dimensions env layouts).1).h =
      (layouts.foldl (calc_step env)
        ⟨calcW0 env, calcH0 env layouts.length, 0, 0, []⟩).dimH := rfl

theorem calcH0_lt (env : Env) (n : Nat) : calcH0 env n < M32 := by
  unfold calcH0 uadd
  exact Nat.mod_lt _ (by norm_num [M32])

theorem calcH0_eq (env : Env) (n : Nat) (hn1 : 1 ≤ n) (hlen : n < M32)
    (hsep : env.s.separator_height < M32) :
    calcH0 env n = (2 * env.s.frame_width + (n - 1) * env.s.separator_height) % M32 := by
  unfold calcH0
  have hu : usub (u32 n) 1 = n - 1 := by
    unfold usub u32 M32 at *
    omega
  rw [hu]
  unfold uadd umul M32 at *
  have hmul : (n - 1) % 4294967296 * (env.s.separator_height % 4294967296) % 4294967296 =
      ((n - 1) * env.s.separator_height) % 4294967296 := by
    rw [Nat.mod_eq_of_lt (show n - 1 < 4294967296 by omega),
        Nat.mod_eq_of_lt (show env.s.separator_height < 4294967296 by omega)]
  rw [hmul]
  omega

theorem calc_step_dimH_out (env : Env) (st : CalcState) (cl : ColoredLayout) :
    ∃ cl2 : ColoredLayout, (calc_step env st cl).outLayouts = st.outLayouts ++ [cl2] ∧
      (calc_step env st cl).dimH = (st.dimH + cardHeight env cl2) % M32 := by
  simp only [calc_step]
  by_cases hb : (env.g.dynamic_width || env.s.shrink) = true
  · simp only [hb, if_true, ite_true]
    refine ⟨_, rfl, ?_⟩
    simp only [cardHeight, uadd, usub, M32]
    omega
  · simp only [hb, Bool.false_eq_true, if_false, ite_false]
    refine ⟨cl, rfl, ?_⟩
    simp only [cardHeight, uadd, contentSize]

theorem calc_foldl_out_dimH (env : Env) :
    ∀ (l : List ColoredLayout) (st : CalcState), st.dimH < M32 →
      ∃ D : List ColoredLayout, D.length = l.length ∧
        (List.foldl (calc_step env) st l).outLayouts = st.outLayouts ++ D ∧
        (List.foldl (calc_step env) st l).dimH =
          (st.dimH + stackContentHeight env D) % M32 := by
  intro l
  induction l with
  | nil =>
      intro st hst
      exact ⟨[], rfl, by simp,
        by simp [stackContentHeight, Nat.mod_eq_of_lt hst]⟩
  | cons cl rest ih =>
      intro st hst
      obtain ⟨cl2, hout1, hh1⟩ := calc_step_dimH_out env st cl
      obtain ⟨D, hDlen, hDout, hDh⟩ :=
        ih (calc_step env st cl) (by rw [hh1]; exact Nat.mod_lt _ (by norm_num [M32]))
      refine ⟨cl2 :: D, by simp [hDlen], ?_, ?_⟩
      · rw [List.foldl_cons, hDout, hout1]
        simp
      · rw [List.foldl_cons, hDh, hh1]
        simp only [stackContentHeight, List.map_cons, List.sum_cons]
        rw [Nat.mod_add_mod, Nat.add_assoc]

/-- Claim C1 (amended): for every nonempty layout list, in every width
configuration (fixed, dynamic or shrink — the reflow path re-adds the
re-measured heights of exactly the layouts the render loop later consumes),
provided the nominal total stays below 2^32, the cursor advances of the
render loop of draw() sum to the stack height computed by
`calculate_dimensions` MINUS one frame width: the bottom frame of the last
card is painted but never advanced past, so equality as originally claimed
holds exactly when frame_width = 0. -/
theorem C1_render_advance_sum (env : Env) (layouts : List ColoredLayout)
    (hne : layouts ≠ []) (hlen : layouts.length < M32)
    (hsep : env.s.separator_height < M32)
    (hbound : 2 * env.s.frame_width + (layouts.length - 1) * env.s.separator_height +
      stackContentHeight env ((calculate_dimensions env layouts).2) < M32) :
    (renderLoop env (calculate_dimensions env layouts).1 true
        (calculate_dimensions env layouts).2).y + (env.s.frame_width : Int) =
      (((calculate_dimensions env layouts).1).h : Int) := by
  have hn1 : 1 ≤ layouts.length := List.length_pos.mpr hne
  obtain ⟨D, hDlen, hDout, hDh⟩ :=
    calc_foldl_out_dimH env layouts ⟨calcW0 env, calcH0 env layouts.length, 0, 0, []⟩
      (calcH0_lt env layouts.length)
  simp only [List.nil_append] at hDout
  have hsnd : (calculate_dimensions env layouts).2 = D := by
    rw [calculate_dimensions_snd, hDout]
  have hDne : D ≠ [] := by
    intro h
    rw [h] at hDlen
    simp at hDlen
    omega
  rw [hsnd] at hbound
  have hh : ((calculate_dimensions env layouts).1).h =
      2 * env.s.frame_width + (layouts.length - 1) * env.s.separator_height +
        stackContentHeight env D := by
    rw [calculate_dimensions_fst_h, hDh,
      calcH0_eq env layouts.length hn1 hlen hsep, Nat.mod_add_mod]
    exact Nat.mod_eq_of_lt hbound
  rw [hsnd, renderLoop_y env D _ true hDne, calc_y_zero, hh, hDlen]
  push_cast [Nat.cast_sub hn1]
  rw [if_pos rfl]
  ring

/-- Witness for C1: in the concrete 32-high stack the cursor ends at 31 and
31 + 1 = 32. -/
theorem C1_render_advance_sum_witness :
    (renderLoop baseEnv (calculate_dimensions baseEnv [plainLayout]).1 true
        (calculate_dimensions baseEnv [plainLayout]).2).y +
        (baseEnv.s.frame_width : Int) =
      (((calculate_dimensions baseEnv [plainLayout]).1).h : Int) :=
  C1_render_advance_sum baseEnv [plainLayout] (List.cons_ne_nil _ _)
    (by decide) (by decide) (by decide)

theorem calc_step_dynamic (env : Env) (hdyn : env.g.dynamic_width = true)
    (hM : env.scr_w + 2 * env.s.h_padding + 2 * env.s.frame_width < M32)
    (st : CalcState) (cl : ColoredLayout)
    (hstabcl : ∀ w, env.measure (r_setup_pango_layout cl.l w) = env.measure cl.l)
    (hfitcl : contentWidth env cl + 2 * env.s.h_padding ≤ env.scr_w)
    (h1 : st.total_width ≤ st.text_width + 2 * env.s.h_padding)
    (h2 : st.text_width + 2 * env.s.h_padding ≤ env.scr_w) :
    (calc_step env st cl).text_width = max (contentWidth env cl) st.text_width ∧
      (calc_step env st cl).total_width =
        max (contentWidth env cl) st.text_width + 2 * env.s.h_padding ∧
      (calc_step env st cl).dimW =
        max (contentWidth env cl) st.text_width + 2 * env.s.h_padding +
          2 * env.s.frame_width := by
  have hcs : ∀ w, contentSize env (r_setup_pango_layout cl.l w) cl.icon =
      contentSize env cl.l cl.icon := by
    intro w
    cases cl.icon <;> simp [contentSize, layoutPixelSize, hstabcl w]
  unfold calc_step
  simp only [hdyn, Bool.true_or, if_true, hcs]
  refine ⟨?_, ?_, ?_⟩ <;>
    first
      | (split_ifs <;> simp only [contentWidth, uadd, M32] at hfitcl h1 h2 hM ⊢ <;> omega)
      | (simp only [contentWidth, uadd, M32] at hfitcl h1 h2 hM ⊢; omega)

theorem calc_foldl_dynamic (env : Env) (hdyn : env.g.dynamic_width = true)
    (hM : env.scr_w + 2 * env.s.h_padding + 2 * env.s.frame_width < M32) :
    ∀ (l : List ColoredLayout) (st : CalcState),
      (∀ cl ∈ l, ∀ w, env.measure (r_setup_pango_layout cl.l w) = env.measure cl.l) →
      (∀ cl ∈ l, contentWidth env cl + 2 * env.s.h_padding ≤ env.scr_w) →
      st.total_width ≤ st.text_width + 2 * env.s.h_padding →
      st.text_width + 2 * env.s.h_padding ≤ env.scr_w →
      (List.foldl (calc_step env) st l).text_width =
          List.foldl (fun a cl => max (contentWidth env cl) a) st.text_width l ∧
        (l ≠ [] →
          (List.foldl (calc_step env) st l).dimW =
            (List.foldl (calc_step env) st l).text_width + 2 * env.s.h_padding +
              2 * env.s.frame_width) := by
  intro l
  induction l with
  | nil =>
      intro st _ _ _ _
      exact ⟨rfl, fun h => absurd rfl h⟩
  | cons cl rest ih =>
      intro st hstab hfit h1 h2
      have hstabcl := hstab cl (List.mem_cons_self cl rest)
      have hfitcl := hfit cl (List.mem_cons_self cl rest)
      have hstep := calc_step_dynamic env hdyn hM st cl hstabcl hfitcl h1 h2
      have hstabrest : ∀ c ∈ rest, ∀ w,
          env.measure (r_setup_pango_layout c.l w) = env.measure c.l :=
        fun c hc => hstab c (List.mem_cons_of_mem cl hc)
      have hfitrest : ∀ c ∈ rest, contentWidth env c + 2 * env.s.h_padding ≤ env.scr_w :=
        fun c hc => hfit c (List.mem_cons_of_mem cl hc)
      have hfitstep : (calc_step env st cl).text_width + 2 * env.s.h_padding ≤ env.scr_w := by
        rw [hstep.1]
        omega
      have h1step : (calc_step env st cl).total_width ≤
          (calc_step env st cl).text_width + 2 * env.s.h_padding := by
        rw [hstep.1, hstep.2.1]
      have ihr := ih (calc_step env st cl) hstabrest hfitrest h1step hfitstep
      simp only [List.foldl_cons]
      refine ⟨?_, fun _ => ?_⟩
      · rw [ihr.1, hstep.1]
      · cases hrest : rest with
        | nil =>
            simp only [hrest, List.foldl_nil] at ihr ⊢
            rw [hstep.2.2, hstep.1]
        | cons r rs =>
            rw [← hrest]
            have : rest ≠ [] := by simp [hrest]
            exact ihr.2 this

theorem foldl_maxcw_le (env : Env) (b : Nat) :
    ∀ (l : List ColoredLayout) (a : Nat), a ≤ b → (∀ cl ∈ l, contentWidth env cl ≤ b) →
      List.foldl (fun a cl => max (contentWidth env cl) a) a l ≤ b := by
  intro l
  induction l with
  | nil => intro a ha _; exact ha
  | cons cl rest ih =>
      intro a ha hf
      simp only [List.foldl_cons]
      exact ih _ (by
        have := hf cl (List.mem_cons_self cl rest)
        omega) (fun c hc => hf c (List.mem_cons_of_mem cl hc))

/-- Claim C3 counterexample: in dynamic-width mode with frame width 2, a
single card of content width 99 on a 100-pixel output yields a computed
stack width of 103 — the returned width exceeds the active output's width,
which the claim says never happens. -/
theorem C3_counterexample :
    wideEnv.g.dynamic_width = true ∧
      wideEnv.scr_w < ((calculate_dimensions wideEnv [dynLayout]).1).w := by
  refine ⟨rfl, by decide⟩

/-- Claim C3 (amended): under a fixed-width non-shrink configuration the
returned width is the configured width (or screen width minus configured
width when negative-anchored and the difference is positive), regardless of
content; under dynamic width, when every card's content fits the output and
re-shaping at the corrected width does not change measured sizes, the
returned width is the maximum content width plus 2*h_padding plus
2*frame_width — a value that can exceed the active output's width by up to
2*frame_width, since the screen cap is applied before the frames are added. -/
theorem C3_width_selection (env : Env) (layouts : List ColoredLayout) :
    ((env.g.dynamic_width = false ∧ env.s.shrink = false ∧ env.g.width ≠ 0 ∧
        env.g.negative_width = false ∧ env.g.width < M32) →
      ((calculate_dimensions env layouts).1).w = env.g.width) ∧
    ((env.g.dynamic_width = false ∧ env.s.shrink = false ∧ env.g.width ≠ 0 ∧
        env.g.negative_width = true ∧ env.g.width < env.scr_w ∧ env.scr_w < M32) →
      ((calculate_dimensions env layouts).1).w = env.scr_w - env.g.width) ∧
    ((env.g.dynamic_width = true ∧
        (∀ cl ∈ layouts, ∀ w, env.measure (r_setup_pango_layout cl.l w) = env.measure cl.l) ∧
        (∀ cl ∈ layouts, contentWidth env cl + 2 * env.s.h_padding ≤ env.scr_w) ∧
        (layouts = [] → 2 * env.s.h_padding ≤ env.scr_w) ∧
        env.scr_w + 2 * env.s.h_padding + 2 * env.s.frame_width < M32) →
      ((calculate_dimensions env layouts).1).w =
        maxContentWidth env layouts + 2 * env.s.h_padding + 2 * env.s.frame_width) := by
  refine ⟨?_, ?_, ?_⟩
  · rintro ⟨hdyn, hshr, hwne, hneg, hwlt⟩
    simp only [calculate_dimensions]
    rw [calc_foldl_fixed env hdyn hshr layouts _ (Nat.mod_lt _ (by norm_num [M32]))]
    have hw1 : u32 env.g.width = env.g.width := Nat.mod_eq_of_lt hwlt
    simp only [hdyn, hneg, hwne, Bool.false_eq_true, if_false, ite_false, ne_eq,
      not_false_iff, if_true, ite_true, hw1]
  · rintro ⟨hdyn, hshr, hwne, hneg, hwlt, hscr⟩
    simp only [calculate_dimensions]
    rw [calc_foldl_fixed env hdyn hshr layouts _ (Nat.mod_lt _ (by norm_num [M32]))]
    have hw1 : usub env.scr_w env.g.width = env.scr_w - env.g.width := by
      unfold usub M32 at *
      omega
    simp only [hdyn, hneg, hwne, Bool.false_eq_true, if_false, ite_false, ne_eq,
      not_false_iff, if_true, ite_true, hw1]
    have : ¬(env.scr_w - env.g.width = 0) := by omega
    simp [this]
  · rintro ⟨hdyn, hstab, hfit, hemp, hM⟩
    cases hl : layouts with
    | nil =>
        simp only [calculate_dimensions, hl, List.foldl_nil, hdyn, if_true, ite_true,
          maxContentWidth, List.foldl_nil]
        have h2hp : 2 * env.s.h_padding ≤ env.scr_w := hemp hl
        unfold uadd M32 at *
        norm_num
        omega
    | cons c0 rest0 =>
        rw [← hl]
        have hne : layouts ≠ [] := by simp [hl]
        have h2hp : 2 * env.s.h_padding ≤ env.scr_w := by
          have := hfit c0 (by simp [hl])
          omega
        have hfold := calc_foldl_dynamic env hdyn hM layouts
          ⟨(if env.g.dynamic_width then 0
            else if env.g.width ≠ 0 then
              if env.g.negative_width then usub env.scr_w env.g.width else u32 env.g.width
            else u32 env.scr_w),
           uadd (uadd 0 (2 * env.s.frame_width))
             (umul (usub (u32 layouts.length) 1) env.s.separator_height), 0, 0, []⟩
          hstab hfit (by simp) (by simpa using h2hp)
        have htext : (List.foldl (calc_step env) _ layouts).text_width =
            maxContentWidth env layouts := hfold.1
        have hdimW := hfold.2 hne
        have hbnd : maxContentWidth env layouts + 2 * env.s.h_padding ≤ env.scr_w := by
          have := foldl_maxcw_le env (env.scr_w - 2 * env.s.h_padding) layouts 0 (by omega)
            (fun cl hc => by have := hfit cl hc; omega)
          unfold maxContentWidth
          omega
        simp only [calculate_dimensions]
        rw [hdimW, htext]
        split_ifs with h0
        · unfold uadd M32 at *
          omega
        · rfl

/-- Witness for C3: the 9-wide content in the dynamic environment yields
width 9 + 0 + 4 = 13. -/
theorem C3_width_selection_witness :
    ((calculate_dimensions dynEnv [dynLayout]).1).w =
      maxContentWidth dynEnv [dynLayout] + 2 * dynEnv.s.h_padding +
        2 * dynEnv.s.frame_width :=
  (C3_width_selection dynEnv [dynLayout]).2.2
    ⟨rfl, fun cl hcl w => rfl, by decide, fun h => (List.cons_ne_nil dynLayout [] h).elim,
      by decide⟩

theorem build_warned (env : Env) (m : Notification) :
    (r_create_layout_from_notification env m).warned =
      ((env.parseMarkup m.text_to_render).isNone && m.first_render) := by
  unfold r_create_layout_from_notification
  cases h : env.parseMarkup m.text_to_render with
  | some v => cases v; simp
  | none => simp

theorem build_clears_first_render (env : Env) (m : Notification) :
    (r_create_layout_from_notification env m).n.first_render = false := by
  unfold r_create_layout_from_notification
  cases h : env.parseMarkup m.text_to_render with
  | some v => cases v; simp
  | none => simp

theorem r_init_shared_l_attrs (env : Env) (n : Notification) :
    (r_init_shared env n).l.attrs = none := by
  unfold r_init_shared r_setup_pango_layout
  cases hdw : env.g.dynamic_width <;> simp [hdw]

/-- Claim C9: when markup parsing of the render text fails, the layout
builder falls back to the plain stripped text with style attributes cleared,
stores the stripped text back on the notification, prints the parser error
exactly when the first-render flag is set, clears that flag before
returning, and a second build of the updated notification records no second
warning. -/
theorem C9_markup_fallback (env : Env) (n : Notification)
    (hfail : env.parseMarkup n.text_to_render = none) (hfr : n.first_render = true) :
    (r_create_layout_from_notification env n).warned = true ∧
    (r_create_layout_from_notification env n).cl.attr = none ∧
    (r_create_layout_from_notification env n).cl.l.attrs = none ∧
    (r_create_layout_from_notification env n).cl.l.text =
      env.markupStrip n.text_to_render ∧
    (r_create_layout_from_notification env n).n.text_to_render =
      env.markupStrip n.text_to_render ∧
    (r_create_layout_from_notification env n).n.first_render = false ∧
    (r_create_layout_from_notification env
        (r_create_layout_from_notification env n).n).warned = false := by
  refine ⟨?_, ?_, ?_, ?_, ?_, ?_, ?_⟩
  · rw [build_warned, hfail, hfr]; rfl
  · simp [r_create_layout_from_notification, hfail]
  · simp [r_create_layout_from_notification, hfail, r_init_shared_l_attrs]
  · simp [r_create_layout_from_notification, hfail]
  · simp [r_create_layout_from_notification, hfail]
  · exact build_clears_first_render env n
  · rw [build_warned, build_clears_first_render]
    simp

/-- Witness for C9: building `noteA` under `baseEnv` (whose markup parser
always fails) warns once, strips, clears, and a rebuild stays silent. -/
theorem C9_markup_fallback_witness :
    (r_create_layout_from_notification baseEnv noteA).warned = true ∧
    (r_create_layout_from_notification baseEnv noteA).cl.attr = none ∧
    (r_create_layout_from_notification baseEnv noteA).cl.l.attrs = none ∧
    (r_create_layout_from_notification baseEnv noteA).cl.l.text =
      baseEnv.markupStrip noteA.text_to_render ∧
    (r_create_layout_from_notification baseEnv noteA).n.text_to_render =
      baseEnv.markupStrip noteA.text_to_render ∧
    (r_create_layout_from_notification baseEnv noteA).n.first_render = false ∧
    (r_create_layout_from_notification baseEnv
        (r_create_layout_from_notification baseEnv noteA).n).warned = false :=
  C9_markup_fallback baseEnv noteA rfl rfl

theorem r_create_layouts_go_cons (env : Env) (qlen : Nat) (xm : Bool)
    (n : Notification) (rest : List Notification) (last0 : Option Notification) :
    r_create_layouts_go env qlen xm (n :: rest) last0 =
      ((r_create_layout_from_notification env
          (if rest.isEmpty && xm && decide (env.g.height = 1) then
            { notification_update_text_to_render env n with
                text_to_render := (notification_update_text_to_render env n).text_to_render ++
                  " " ++ xmoreLabel qlen }
          else notification_update_text_to_render env n)).cl ::
        (r_create_layouts_go env qlen xm rest
          (some (if rest.isEmpty && xm && decide (env.g.height = 1) then
            { notification_update_text_to_render env n with
                text_to_render := (notification_update_text_to_render env n).text_to_render ++
                  " " ++ xmoreLabel qlen }
          else notification_update_text_to_render env n))).1,
       (r_create_layouts_go env qlen xm rest
          (some (if rest.isEmpty && xm && decide (env.g.height = 1) then
            { notification_update_text_to_render env n with
                text_to_render := (notification_update_text_to_render env n).text_to_render ++
                  " " ++ xmoreLabel qlen }
          else notification_update_text_to_render env n))).2) := rfl

theorem r_create_layouts_go_spec (env : Env) (qlen : Nat) (xm : Bool) :
    ∀ (l : List Notification) (hl : l ≠ []) (last0 : Option Notification),
      r_create_layouts_go env qlen xm l last0 =
        (l.dropLast.map (fun n => (r_create_layout_from_notification env
            (notification_update_text_to_render env n)).cl) ++
          [(r_create_layout_from_notification env (finalNotif env qlen xm (l.getLast hl))).cl],
         some (finalNotif env qlen xm (l.getLast hl))) := by
  intro l
  induction l with
  | nil => intro hl; exact absurd rfl hl
  | cons n rest ih =>
      intro hl last0
      cases rest with
      | nil =>
          rw [r_create_layouts_go_cons]
          simp only [List.isEmpty_nil, Bool.true_and, List.dropLast_single, List.map_nil,
            List.nil_append, List.getLast_singleton, finalNotif]
          rfl
      | cons m rest2 =>
          have hmr : m :: rest2 ≠ [] := by simp
          rw [r_create_layouts_go_cons]
          simp only [List.isEmpty_cons, Bool.false_and, Bool.false_eq_true, if_false,
            ite_false]
          rw [ih hmr (some (notification_update_text_to_render env n))]
          simp only [List.dropLast_cons_of_ne_nil hmr, List.map_cons,
            List.getLast_cons hmr, List.cons_append]

theorem finalNotif_of_ne_one (env : Env) (qlen : Nat) (xm : Bool) (n : Notification)
    (h : env.g.height ≠ 1) :
    finalNotif env qlen xm n = notification_update_text_to_render env n := by
  simp [finalNotif, h]

/-- Claim C4: for a nonempty displayed list, a positive hidden count and the
indicator enabled, `r_create_layouts` produces the built layouts of the
displayed notifications in order followed by exactly one synthetic overflow
card carrying the text "(N more)" when the height mode is not single-line;
in single-line mode (geometry.height = 1) no extra card is appended and the
last real notification's render text is instead suffixed with " (N more)". -/
theorem C4_overflow_card (env : Env) (displayed : List Notification) (qlen : Nat)
    (hq : 0 < qlen) (hind : env.s.indicate_hidden = true) (hne : displayed ≠ []) :
    (env.g.height ≠ 1 →
      r_create_layouts env displayed qlen =
        displayed.map (fun n => (r_create_layout_from_notification env
            (notification_update_text_to_render env n)).cl) ++
          [r_create_layout_for_xmore env
            (notification_update_text_to_render env (displayed.getLast hne)) qlen] ∧
      (r_create_layout_for_xmore env
          (notification_update_text_to_render env (displayed.getLast hne)) qlen).text =
        some (xmoreLabel qlen)) ∧
    (env.g.height = 1 →
      r_create_layouts env displayed qlen =
        displayed.dropLast.map (fun n => (r_create_layout_from_notification env
            (notification_update_text_to_render env n)).cl) ++
          [(r_create_layout_from_notification env
              (finalNotif env qlen true (displayed.getLast hne))).cl] ∧
      (finalNotif env qlen true (displayed.getLast hne)).text_to_render =
        (notification_update_text_to_render env (displayed.getLast hne)).text_to_render ++
          " " ++ xmoreLabel qlen) := by
  have hxm : (decide (0 < qlen) && env.s.indicate_hidden) = true := by
    rw [hind, decide_eq_true hq]
    rfl
  constructor
  · intro hh
    have hdh : decide (env.g.height ≠ 1) = true := decide_eq_true hh
    constructor
    · simp only [r_create_layouts, hxm, hdh, Bool.true_and, if_true, ite_true]
      rw [r_create_layouts_go_spec env qlen true displayed hne none]
      simp only [finalNotif_of_ne_one env qlen true _ hh, Option.getD_some]
      have hsplit : displayed.map (fun n => (r_create_layout_from_notification env
          (notification_update_text_to_render env n)).cl) =
          displayed.dropLast.map (fun n => (r_create_layout_from_notification env
            (notification_update_text_to_render env n)).cl) ++
            [(r_create_layout_from_notification env
              (notification_update_text_to_render env (displayed.getLast hne))).cl] := by
        conv_lhs => rw [← List.dropLast_append_getLast hne]
        rw [List.map_append, List.map_singleton]
      rw [hsplit, List.append_assoc]
    · rfl
  · intro h1
    have hdh : decide (env.g.height ≠ 1) = false := by
      simp [h1]
    constructor
    · simp only [r_create_layouts, hxm, hdh, Bool.true_and, Bool.and_false, if_false,
        ite_false]
      rw [r_create_layouts_go_spec env qlen true displayed hne none]
      simp
    · simp [finalNotif, h1]

/-- Witness for C4: one displayed notification and three hidden ones in the
non-single-line environment produce its built card followed by the synthetic
"(3 more)" card. -/
theorem C4_overflow_card_witness :
    r_create_layouts baseEnv [noteA] 3 =
      [(r_create_layout_from_notification baseEnv
          (notification_update_text_to_render baseEnv noteA)).cl,
        r_create_layout_for_xmore baseEnv
          (notification_update_text_to_render baseEnv noteA) 3] := by
  have h := ((C4_overflow_card baseEnv [noteA] 3 (by decide) rfl
      (List.cons_ne_nil _ _)).1 (by decide)).1
  simpa using h

theorem icon_path_search_eq_findSome (fs : String → FileState) (name : String) :
    ∀ dirs : List String,
      icon_path_search fs dirs name =
        (dirs.map (selectedCandidate fs name)).findSome? (get_pixbuf_from_file fs) := by
  intro dirs
  induction dirs with
  | nil => rfl
  | cons d rest ih =>
      simp only [icon_path_search, List.map_cons, List.findSome?_cons, selectedCandidate]
      split_ifs with h
      · cases hf : get_pixbuf_from_file fs (d ++ "/" ++ name ++ ".svg") <;> simp [hf, ih]
      · cases hf : get_pixbuf_from_file fs (d ++ "/" ++ name ++ ".png") <;> simp [hf, ih]

/-- Claim C8 counterexample: with one search directory holding an
existing-but-undecodable svg next to a decodable png, the search yields no
icon even though decoding the png candidate — which the claim says is tried
— would succeed. -/
theorem C8_counterexample :
    icon_path_search fsShadow ["d"] "ic" = none ∧
      get_pixbuf_from_file fsShadow ("d" ++ "/" ++ "ic" ++ ".png") = some imgC8 ∧
      icon_path_search_spec fsShadow ["d"] "ic" = some imgC8 := by
  refine ⟨by decide, by decide, by decide⟩

/-- Claim C8 (amended): for a non-path icon name, the search selects in each
directory the svg path when any file exists there (even an undecodable one)
and the png path otherwise, decodes only that selected candidate, and
returns the first success in directory order — an existing-but-undecodable
svg therefore shadows a decodable png in the same directory; when no
directory's selected candidate decodes, `get_pixbuf_from_path` reports the
non-fatal "could not load icon" warning and yields no icon. -/
theorem C8_icon_search (env : Env) (name : String) (hlen : name.length ≠ 0)
    (h1 : strStarts name.data ("file://".data) = false)
    (h2 : strStarts name.data ("/".data) = false)
    (h3 : strStarts name.data ("~".data) = false) :
    icon_path_search env.fs env.icon_dirs name =
      (env.icon_dirs.map (selectedCandidate env.fs name)).findSome?
        (get_pixbuf_from_file env.fs) ∧
    get_pixbuf_from_path env name =
      (icon_path_search env.fs env.icon_dirs name,
        (icon_path_search env.fs env.icon_dirs name).isNone) := by
  refine ⟨icon_path_search_eq_findSome env.fs name env.icon_dirs, ?_⟩
  unfold get_pixbuf_from_path
  rw [if_neg hlen]
  simp only [h1, Bool.false_eq_true, if_false, ite_false, h2, h3, Bool.or_self]
  cases hs : icon_path_search env.fs env.icon_dirs name <;> simp [hs]

/-- Witness for C8: searching for "ic" in the shadowing environment selects
the svg, fails to decode it, exhausts the list, and warns. -/
theorem C8_icon_search_witness :
    icon_path_search iconEnv.fs iconEnv.icon_dirs "ic" =
      (iconEnv.icon_dirs.map (selectedCandidate iconEnv.fs "ic")).findSome?
        (get_pixbuf_from_file iconEnv.fs) ∧
    get_pixbuf_from_path iconEnv "ic" =
      (icon_path_search iconEnv.fs iconEnv.icon_dirs "ic",
        (icon_path_search iconEnv.fs iconEnv.icon_dirs "ic").isNone) :=
  C8_icon_search iconEnv "ic" (by decide) (by decide) (by decide) (by decide)

end Dunst
